import Mathlib

/-!
Verification of the PhysioCheck rehabilitation platform against its
natural-language specification.

The repository ships the JavaScript/React client and the Node API; the
Python computer-vision core (`app.py` / `workout_session.py`: the per-limb
rep state machine, the session lifecycle controller and the pose accuracy
scorer) is referenced by the client but its source is not part of the
repository snapshot.  Where a definition embeds repository source it keeps
the source's names and branch structure; where the Python core is needed it
is modelled from the specification, and the doc comment says so.

Angles, times and scores are modelled as rationals (the JS/Python sources
use IEEE doubles; none of the properties proved here depend on rounding).
-/

namespace PhysioCheck

/-! ## Per-limb rep state machine (spec §4.2)

Modelled from the spec: `workout_session.py` is not in the repository; the
states, the hysteresis thresholds, the rep-commit rule, the timing rules and
the form-error rules follow §4.2 verbatim. -/

/-- The five stages of §4.2. -/
inductive Stage
  | DOWN
  | TRANSITION_UP
  | UP
  | TRANSITION_DOWN
  | LOST
  deriving DecidableEq, Repr

/-- Per-limb threshold configuration (§4.2, §6 `exerciseConfig`). -/
structure LimbConfig where
  /-- fully-extended threshold, e.g. 160° -/
  lower : ℚ
  /-- fully-contracted threshold, e.g. 45° -/
  upper : ℚ
  /-- safety margin for the form-error bounds -/
  margin : ℚ
  /-- minimum plausible rep duration (filters instantaneous triggers) -/
  minRepDuration : ℚ
  deriving DecidableEq, Repr

/-- Per-limb mutable state (§3 `LimbRepState`). -/
structure LimbState where
  stage : Stage
  repCount : ℕ
  currentRepStartTime : ℚ
  lastRepDuration : Option ℚ
  bestRepDuration : Option ℚ
  errorCount : ℕ
  /-- whether a form error was already recorded in the current rep cycle
      (errors are de-duplicated within one cycle, §4.2) -/
  errorThisRep : Bool
  currentFeedback : Option String
  deriving DecidableEq, Repr

/-- Modelled from the spec: a limb starts a session with `repCount=0`,
`stage=DOWN` (§3). -/
def initLimbState : LimbState :=
  { stage := .DOWN, repCount := 0, currentRepStartTime := 0,
    lastRepDuration := none, bestRepDuration := none,
    errorCount := 0, errorThisRep := false, currentFeedback := none }

/-- Modelled from the spec: form-error classification of §4.2 —
hyperextension beyond `lower + margin`, over-contraction beyond
`upper − margin`. -/
def classifyFormError (cfg : LimbConfig) (a : ℚ) : Option String :=
  if cfg.lower + cfg.margin < a then some "OVER-EXTENDED"
  else if a < cfg.upper - cfg.margin then some "OVER-CURLED"
  else none

/-- Modelled from the spec: while in `UP` or a transitional stage a
qualifying angle sets `currentFeedback` and bumps `errorCount` once per rep
cycle (§4.2).  Never touches `stage` or `repCount`. -/
def applyFormError (cfg : LimbConfig) (s : LimbState) (a : ℚ) : LimbState :=
  if s.stage = .UP ∨ s.stage = .TRANSITION_UP ∨ s.stage = .TRANSITION_DOWN then
    match classifyFormError cfg a with
    | some fb =>
        if s.errorThisRep then { s with currentFeedback := some fb }
        else { s with currentFeedback := some fb,
                      errorCount := s.errorCount + 1, errorThisRep := true }
    | none => { s with currentFeedback := none }
  else { s with currentFeedback := none }

/-- Modelled from the spec: rep completion on re-entering `DOWN` —
`repCount` +1, `lastRepDuration` recorded, `bestRepDuration` is the minimum
over completed reps whose duration exceeds the plausibility threshold
(§4.2). -/
def completeRep (cfg : LimbConfig) (s : LimbState) (t : ℚ) : LimbState :=
  { s with stage := .DOWN,
           repCount := s.repCount + 1,
           lastRepDuration := some (t - s.currentRepStartTime),
           bestRepDuration :=
             if cfg.minRepDuration < t - s.currentRepStartTime then
               match s.bestRepDuration with
               | none => some (t - s.currentRepStartTime)
               | some b => some (min b (t - s.currentRepStartTime))
             else s.bestRepDuration,
           errorThisRep := false }

/-- Modelled from the spec: the hysteresis stage transition of §4.2.
`DOWN→UP` commits only once the angle crosses `upper` from above; the
reverse commit (which records the rep) requires crossing `lower` from
below.  Recovery from `LOST` re-classifies the angle without recording a
rep (no reps are recorded while `LOST`). -/
def transitionStage (cfg : LimbConfig) (s : LimbState) (a t : ℚ) : LimbState :=
  match s.stage with
  | .DOWN =>
      if a ≤ cfg.upper then
        { s with stage := .UP, currentRepStartTime := t }
      else if a < cfg.lower then
        { s with stage := .TRANSITION_UP, currentRepStartTime := t }
      else s
  | .TRANSITION_UP =>
      if a ≤ cfg.upper then { s with stage := .UP }
      else if cfg.lower ≤ a then { s with stage := .DOWN }
      else s
  | .UP =>
      if cfg.lower ≤ a then completeRep cfg s t
      else if cfg.upper < a then { s with stage := .TRANSITION_DOWN }
      else s
  | .TRANSITION_DOWN =>
      if cfg.lower ≤ a then completeRep cfg s t
      else if a ≤ cfg.upper then { s with stage := .UP }
      else s
  | .LOST =>
      if a ≤ cfg.upper then { s with stage := .UP }
      else if cfg.lower ≤ a then { s with stage := .DOWN }
      else { s with stage := .TRANSITION_UP }

/-- Modelled from the spec: one frame of the per-limb state machine.  The
angle sentinel `0` ("landmark not visible", §3/§4.1) degrades to `LOST`,
freezing `repCount`/`errorCount` and setting a pose-lost feedback (§4.2);
otherwise the hysteresis transition runs and the form-error classifier is
applied to the updated state. -/
def stepLimb (cfg : LimbConfig) (s : LimbState) (a t : ℚ) : LimbState :=
  if a = 0 then
    { s with stage := .LOST, currentFeedback := some "POSE LOST" }
  else
    applyFormError cfg (transitionStage cfg s a t) a

/-- A frame sequence is a list of (angle, timestamp) pairs fed in order. -/
def runLimb (cfg : LimbConfig) (s : LimbState) (frames : List (ℚ × ℚ)) :
    LimbState :=
  frames.foldl (fun st f => stepLimb cfg st f.1 f.2) s

theorem applyFormError_repCount (cfg : LimbConfig) (s : LimbState) (a : ℚ) :
    (applyFormError cfg s a).repCount = s.repCount := by
  unfold applyFormError
  split
  · cases h : classifyFormError cfg a <;> simp [h]
    split <;> rfl
  · rfl

theorem applyFormError_stage (cfg : LimbConfig) (s : LimbState) (a : ℚ) :
    (applyFormError cfg s a).stage = s.stage := by
  unfold applyFormError
  split
  · cases h : classifyFormError cfg a <;> simp [h]
    split <;> rfl
  · rfl

/-- Exact characterization of a single step's effect on `repCount`: the
count moves only at a commit back to `DOWN` from the `UP` side. -/
theorem stepLimb_repCount (cfg : LimbConfig) (s : LimbState) (a t : ℚ) :
    (stepLimb cfg s a t).repCount =
      (if a ≠ 0 ∧ cfg.lower ≤ a ∧ (s.stage = .UP ∨ s.stage = .TRANSITION_DOWN)
       then s.repCount + 1 else s.repCount) := by
  unfold stepLimb
  by_cases h0 : a = 0
  · simp [h0]
  · simp only [h0, if_false, applyFormError_repCount, ne_eq,
      not_false_eq_true, true_and]
    unfold transitionStage
    cases hs : s.stage <;> simp [hs] <;> split_ifs <;>
      simp_all [completeRep]

/-- When a step does record a rep, the new stage is `DOWN`. -/
theorem stepLimb_stage_of_increment (cfg : LimbConfig) (s : LimbState)
    (a t : ℚ) (h : (stepLimb cfg s a t).repCount = s.repCount + 1) :
    (stepLimb cfg s a t).stage = .DOWN := by
  rw [stepLimb_repCount] at h
  by_cases hc : a ≠ 0 ∧ cfg.lower ≤ a ∧ (s.stage = .UP ∨ s.stage = .TRANSITION_DOWN)
  · obtain ⟨h0, hl, hst⟩ := hc
    unfold stepLimb
    simp only [h0, if_neg h0, applyFormError_stage]
    unfold transitionStage
    rcases hst with hst | hst <;>
      simp [hst, hl, completeRep, applyFormError_stage]
  · simp [hc] at h

theorem stepLimb_repCount_le (cfg : LimbConfig) (s : LimbState) (a t : ℚ) :
    s.repCount ≤ (stepLimb cfg s a t).repCount := by
  rw [stepLimb_repCount]; split <;> omega

theorem runLimb_repCount_le (cfg : LimbConfig) (s : LimbState)
    (frames : List (ℚ × ℚ)) :
    s.repCount ≤ (runLimb cfg s frames).repCount := by
  induction frames generalizing s with
  | nil => simp [runLimb]
  | cons f fs ih =>
      have h1 := stepLimb_repCount_le cfg s f.1 f.2
      have h2 := ih (stepLimb cfg s f.1 f.2)
      simpa [runLimb] using le_trans h1 (by simpa [runLimb] using h2)

/-- **C1.** For every frame sequence fed to a per-limb rep state machine,
`repCount` is non-decreasing; each single frame changes `repCount` by 0 or
1; the count increments by exactly 1 precisely at the moment the limb
returns to `DOWN` from the contracted side (stage `UP` or
`TRANSITION_DOWN` with the angle back across `lower`), and at that moment
the new stage is `DOWN`.  Since an increment requires having committed to
`UP` (angle across `upper`) and resets the stage to `DOWN`, angle jitter
inside the hysteresis band can never double-count a rep. -/
theorem repCount_monotone_single_increment (cfg : LimbConfig) (s : LimbState)
    (frames : List (ℚ × ℚ)) (a t : ℚ) :
    s.repCount ≤ (runLimb cfg s frames).repCount ∧
    ((stepLimb cfg s a t).repCount = s.repCount ∨
      (stepLimb cfg s a t).repCount = s.repCount + 1) ∧
    ((stepLimb cfg s a t).repCount = s.repCount + 1 ↔
      a ≠ 0 ∧ cfg.lower ≤ a ∧ (s.stage = .UP ∨ s.stage = .TRANSITION_DOWN)) ∧
    ((stepLimb cfg s a t).repCount = s.repCount + 1 →
      (stepLimb cfg s a t).stage = .DOWN) := by
  refine ⟨runLimb_repCount_le cfg s frames, ?_, ?_, stepLimb_stage_of_increment cfg s a t⟩
  · rw [stepLimb_repCount]; split <;> omega
  · rw [stepLimb_repCount]
    constructor
    · intro h
      by_contra hc
      simp [hc] at h
    · intro h
      simp [h]

/-- The bicep-curl thresholds the spec's end-to-end scenarios use
(`{lower:160, upper:45}`, §8). -/
def curlConfig : LimbConfig :=
  { lower := 160, upper := 45, margin := 15, minRepDuration := 1/2 }

/-- Closed instantiation of `repCount_monotone_single_increment` at the
curl configuration, a fresh limb and a one-frame sequence. -/
theorem repCount_monotone_single_increment_witness :
    initLimbState.repCount ≤
      (runLimb curlConfig initLimbState [(100, 1)]).repCount ∧
    ((stepLimb curlConfig initLimbState 100 1).repCount =
        initLimbState.repCount ∨
      (stepLimb curlConfig initLimbState 100 1).repCount =
        initLimbState.repCount + 1) :=
  ⟨(repCount_monotone_single_increment curlConfig initLimbState
      [(100, 1)] 100 1).1,
   (repCount_monotone_single_increment curlConfig initLimbState
      [(100, 1)] 100 1).2.1⟩

/-! ## Dashboard metric display (embedding of `static/js` frontend script,
`src/unnamed/part_006`) -/

/-- One arm's entry in the `/data_feed` payload, as read by the dashboard
script (`metrics.angle`, `metrics.stage`, `metrics.rep_count`,
`metrics.curr_rep_time`, `metrics.min_rep_time`, `metrics.rep_time`,
`metrics.feedback`). -/
structure ArmMetrics where
  angle : ℚ
  stage : String
  rep_count : ℕ
  curr_rep_time : ℚ
  min_rep_time : ℚ
  rep_time : ℚ
  feedback : Option String
  deriving DecidableEq, Repr

/-- The CSS custom properties the dashboard script assigns. -/
inductive CssColor
  | danger
  | success
  | warning
  | textLight
  | darkBg
  deriving DecidableEq, Repr

/-- The DOM state of one arm's metric panel.  A timing field holds `some t`
when the script writes `t.toFixed(2)+'s'` and `none` when it writes
`'--'`. -/
structure ArmDisplay where
  repsText : ℕ
  stageText : String
  angleText : ℚ
  angleColor : CssColor
  currTimeText : Option ℚ
  minTimeText : Option ℚ
  lastTimeText : Option ℚ
  deriving DecidableEq, Repr

/-- Embeds `updateMetricValue` of the dashboard script: given the arm's
metrics and the panel's previous DOM state, returns the new DOM state and
the boolean the function returns (`true` = pose lost).  In the lost branch
the timing elements are not written, so they keep their previous
contents. -/
def updateMetricValue (m : ArmMetrics) (d : ArmDisplay) : ArmDisplay × Bool :=
  if m.angle = 0 ∧ m.stage ≠ "INACTIVE" then
    ({ d with repsText := m.rep_count, stageText := "LOST POSE",
              angleText := 0, angleColor := .danger }, true)
  else
    ({ repsText := m.rep_count, stageText := m.stage, angleText := m.angle,
       angleColor := .success,
       currTimeText := if m.curr_rep_time > 1/100 then some m.curr_rep_time else none,
       minTimeText := if m.min_rep_time > 1/100 then some m.min_rep_time else none,
       lastTimeText := if m.rep_time > 1/100 then some m.rep_time else none },
     false)

/-- **C2.** `updateMetricValue` displays the `LOST POSE` state and returns
`true` exactly when the angle equals 0 while the stage is not `INACTIVE`;
in every other case it displays the actual stage and angle (in the success
color) and returns `false`, so a pose-lost state is visibly distinguishable
from a genuine angle reading. -/
theorem updateMetricValue_lost_pose (m : ArmMetrics) (d : ArmDisplay) :
    ((updateMetricValue m d).2 = true ↔ m.angle = 0 ∧ m.stage ≠ "INACTIVE") ∧
    ((updateMetricValue m d).2 = true →
      (updateMetricValue m d).1.stageText = "LOST POSE" ∧
      (updateMetricValue m d).1.angleText = 0 ∧
      (updateMetricValue m d).1.angleColor = .danger ∧
      (updateMetricValue m d).1.repsText = m.rep_count) ∧
    ((updateMetricValue m d).2 = false →
      (updateMetricValue m d).1.stageText = m.stage ∧
      (updateMetricValue m d).1.angleText = m.angle ∧
      (updateMetricValue m d).1.angleColor = .success ∧
      (updateMetricValue m d).1.repsText = m.rep_count) := by
  unfold updateMetricValue
  by_cases h : m.angle = 0 ∧ m.stage ≠ "INACTIVE" <;> simp [h]

/-- A concrete metrics reading with the angle sentinel while tracking. -/
def lostPoseMetrics : ArmMetrics :=
  { angle := 0, stage := "UP", rep_count := 3, curr_rep_time := 1,
    min_rep_time := 2, rep_time := 2, feedback := none }

/-- A concrete previous panel state. -/
def upArmDisplay : ArmDisplay :=
  { repsText := 3, stageText := "UP", angleText := 50,
    angleColor := .success, currTimeText := none, minTimeText := none,
    lastTimeText := none }

/-- Closed instantiation of `updateMetricValue_lost_pose` at a concrete
lost-pose reading, discharging the inner conditions there. -/
theorem updateMetricValue_lost_pose_witness :
    (updateMetricValue lostPoseMetrics upArmDisplay).2 = true ∧
    (updateMetricValue lostPoseMetrics upArmDisplay).1.stageText = "LOST POSE" := by
  have h := updateMetricValue_lost_pose lostPoseMetrics upArmDisplay
  have htrue : (updateMetricValue lostPoseMetrics upArmDisplay).2 = true :=
    h.1.mpr ⟨rfl, by decide⟩
  exact ⟨htrue, (h.2.1 htrue).1⟩

/-! ## Overall feedback banner (embedding of `updateMetrics` in
`src/unnamed/part_006`) -/

/-- The full `/data_feed` payload for the ACTIVE phase. -/
structure DataFeed where
  status : String
  right : ArmMetrics
  left : ArmMetrics
  deriving DecidableEq, Repr

/-- JavaScript truthiness of an optional string (`undefined`, `null` and
`""` are falsy). -/
def truthy : Option String → Bool
  | none => false
  | some s => s ≠ ""

/-- `String.includes` of JavaScript: `pat` occurs contiguously in `s`. -/
def strContains (s pat : String) : Bool :=
  (List.range (s.toList.length + 1)).any fun i =>
    (s.toList.drop i).take pat.toList.length = pat.toList

/-- The state of the overall feedback banner. -/
structure FeedbackDiv where
  text : String
  background : CssColor
  textColor : CssColor
  deriving DecidableEq, Repr

/-- Embeds the per-arm feedback coloring of `updateMetrics`: feedback
containing `OVER-` or `DEEPER` gets the danger colors, any other feedback
the warning colors; the banner text is `` `${arm}: ${feedback}` ``. -/
def feedbackBanner (arm fb : String) : FeedbackDiv :=
  if strContains fb "OVER-" || strContains fb "DEEPER" then
    { text := arm ++ ": " ++ fb, background := .danger, textColor := .textLight }
  else
    { text := arm ++ ": " ++ fb, background := .warning, textColor := .darkBg }

/-- Severity tier implied by the coloring rule of `updateMetrics`. -/
inductive Severity
  | success
  | warning
  | danger
  deriving DecidableEq, Repr

/-- Severity of a feedback string under the dashboard's classification. -/
def feedbackSeverity (fb : String) : Severity :=
  if strContains fb "OVER-" || strContains fb "DEEPER" then .danger
  else .warning

/-- Severity carried by a banner's colors. -/
def bannerSeverity (d : FeedbackDiv) : Severity :=
  match d.background with
  | .danger => .danger
  | .warning => .warning
  | _ => .success

/-- Embeds the arm loop and overall-status logic of `updateMetrics` (the
`ACTIVE`-status path; `INACTIVE` and `COUNTDOWN` return earlier): the arms
are visited in the fixed order RIGHT, LEFT; the first arm with truthy
feedback sets the banner and breaks the loop (so LEFT's panel is not even
updated); only when no arm had feedback does the pose-lost or
perfect-form banner show.  `dR`/`dL` are the previous panel states and
`prev` the previous banner. -/
def updateMetricsBanner (data : DataFeed) (dR dL : ArmDisplay)
    (prev : FeedbackDiv) : FeedbackDiv :=
  let rLost := (updateMetricValue data.right dR).2
  if truthy data.right.feedback then
    feedbackBanner "RIGHT" (data.right.feedback.getD "")
  else
    let lLost := (updateMetricValue data.left dL).2
    if truthy data.left.feedback then
      feedbackBanner "LEFT" (data.left.feedback.getD "")
    else if rLost || lLost then
      { text := "CRITICAL: STEP BACK, POSE LOST!", background := .danger,
        textColor := .textLight }
    else if data.status = "ACTIVE" then
      { text := "PERFECT FORM! KEEP UP THE TEMPO.", background := .success,
        textColor := .darkBg }
    else prev

/-- A data feed in which RIGHT carries a warning-tier feedback and LEFT a
danger-tier one. -/
def mixedSeverityFeed : DataFeed :=
  { status := "ACTIVE",
    right := { angle := 100, stage := "UP", rep_count := 2, curr_rep_time := 1,
               min_rep_time := 1, rep_time := 1,
               feedback := some "STRAIGHTEN ARM" },
    left := { angle := 30, stage := "UP", rep_count := 2, curr_rep_time := 1,
              min_rep_time := 1, rep_time := 1,
              feedback := some "OVER-CURLED" } }

/-- A blank panel/banner state to instantiate the display functions at. -/
def blankArmDisplay : ArmDisplay :=
  { repsText := 0, stageText := "INACTIVE", angleText := 0,
    angleColor := .success, currTimeText := none, minTimeText := none,
    lastTimeText := none }

/-- **C3 counterexample.** The claim says the highest-severity feedback
across the limbs wins display priority.  On a frame where RIGHT carries the
warning-tier "STRAIGHTEN ARM" and LEFT the danger-tier "OVER-CURLED", the
banner shows RIGHT's feedback with warning colors, not the
highest-severity (danger) feedback: limb order, not severity, decides. -/
theorem banner_not_highest_severity :
    truthy mixedSeverityFeed.right.feedback = true ∧
    truthy mixedSeverityFeed.left.feedback = true ∧
    feedbackSeverity "OVER-CURLED" = .danger ∧
    feedbackSeverity "STRAIGHTEN ARM" = .warning ∧
    (updateMetricsBanner mixedSeverityFeed blankArmDisplay blankArmDisplay
        { text := "", background := .warning, textColor := .darkBg }).text
      = "RIGHT: STRAIGHTEN ARM" ∧
    bannerSeverity
        (updateMetricsBanner mixedSeverityFeed blankArmDisplay blankArmDisplay
          { text := "", background := .warning, textColor := .darkBg })
      ≠ .danger := by
  refine ⟨rfl, rfl, rfl, rfl, rfl, ?_⟩
  decide

/-- **C3 (amended).** For every ACTIVE per-frame snapshot in which both
limbs carry feedback, the overall displayed banner is the feedback of the
first limb in the fixed order RIGHT, LEFT that carries one — RIGHT's
feedback wins regardless of severity; severity only selects the banner's
colors, via `feedbackBanner`. -/
theorem banner_right_limb_priority (data : DataFeed) (dR dL : ArmDisplay)
    (prev : FeedbackDiv) (fbR : String)
    (hR : data.right.feedback = some fbR) (hne : fbR ≠ "") :
    updateMetricsBanner data dR dL prev = feedbackBanner "RIGHT" fbR := by
  unfold updateMetricsBanner
  rw [hR]
  have ht : truthy (some fbR) = true := by simp [truthy, hne]
  simp [ht]

/-- Closed instantiation of `banner_right_limb_priority` on the
mixed-severity feed. -/
theorem banner_right_limb_priority_witness :
    updateMetricsBanner mixedSeverityFeed blankArmDisplay blankArmDisplay
        { text := "", background := .warning, textColor := .darkBg }
      = feedbackBanner "RIGHT" "STRAIGHTEN ARM" :=
  banner_right_limb_priority mixedSeverityFeed blankArmDisplay blankArmDisplay
    { text := "", background := .warning, textColor := .darkBg }
    "STRAIGHTEN ARM" rfl (by decide)

/-! ## Session lifecycle (spec §4.4, §5, §6)

Modelled from the spec: the Flask controller (`app.py`) holding the session
phase machine is not in the repository; phases, the start/stop contracts
and the summary shape follow §4.4–§6.  The client-side handlers below are
embedded from the start/stop button listeners in `src/unnamed/part_006`. -/

/-- Coarse session phases (§4.4). -/
inductive SessionPhase
  | INACTIVE
  | CALIBRATION
  | COUNTDOWN
  | ACTIVE
  | STOPPED
  deriving DecidableEq, Repr

/-- Session-wide state (§3 `SessionState`, limbs restricted to the two
tracked arms). -/
structure SessionState where
  phase : SessionPhase
  rightLimb : LimbState
  leftLimb : LimbState
  elapsedSeconds : ℚ
  deriving DecidableEq, Repr

/-- Per-limb slice of the stop-time summary, with the field names the
report page reads (`total_reps`, `min_time`, `error_count`). -/
structure LimbSummary where
  total_reps : ℕ
  min_time : ℚ
  error_count : ℕ
  deriving DecidableEq, Repr

/-- The finalized summary (§3 `SessionSummary`; `/report_data` payload). -/
structure SessionSummary where
  right : LimbSummary
  left : LimbSummary
  duration : ℚ
  deriving DecidableEq, Repr

/-- Modelled from the spec: the per-limb summary slice archived at stop
time (§3); a limb with no plausible completed rep reports `min_time` 0. -/
def limbSummaryOf (l : LimbState) : LimbSummary :=
  { total_reps := l.repCount, min_time := l.bestRepDuration.getD 0,
    error_count := l.errorCount }

/-- Modelled from the spec: the `SessionSummary` computed at stop time
(§4.4); reads only the limbs and the elapsed time, never the phase. -/
def summaryOf (s : SessionState) : SessionSummary :=
  { right := limbSummaryOf s.rightLimb, left := limbSummaryOf s.leftLimb,
    duration := s.elapsedSeconds }

/-- The protocol error of §6. -/
inductive StartError
  | ALREADY_ACTIVE
  deriving DecidableEq, Repr

/-- Modelled from the spec: `startSession` (§6) — a start while the session
is anywhere between `CALIBRATION` and `ACTIVE` is rejected with
`ALREADY_ACTIVE` and the state is returned untouched; otherwise a fresh
session begins in `CALIBRATION` (§4.4). -/
def startSession (s : SessionState) : SessionState × Option StartError :=
  if s.phase = .INACTIVE ∨ s.phase = .STOPPED then
    ({ phase := .CALIBRATION, rightLimb := initLimbState,
       leftLimb := initLimbState, elapsedSeconds := 0 }, none)
  else (s, some .ALREADY_ACTIVE)

/-- Modelled from the spec: `stopSession` (§4.4–§6) — honored at any phase,
transitions directly to `STOPPED` and returns the summary computed from the
state it observed.  There is no error case: stop never fails. -/
def stopSession (s : SessionState) : SessionState × SessionSummary :=
  ({ s with phase := .STOPPED }, summaryOf s)

/-- The JSON statuses the start endpoint answers with, as the dashboard
script distinguishes them. -/
inductive StartResponse
  | success
  | alreadyActive
  | fail (msg : String)
  deriving DecidableEq, Repr

/-- The dashboard DOM state touched by `setTrackingState`
(`src/unnamed/part_006`). -/
structure UiState where
  startDisabled : Bool
  stopDisabled : Bool
  header : String
  deriving DecidableEq, Repr

/-- Embeds `setTrackingState` of the dashboard script (button enablement
and header text). -/
def setTrackingState (isActive : Bool) (u : UiState) : UiState :=
  { u with startDisabled := isActive, stopDisabled := !isActive,
           header := if isActive then "PhysioCheck: Tracking Active"
                     else "PhysioCheck: Inactive" }

/-- Embeds the start-button response handler of the dashboard script:
`success` activates the UI; `already_active` raises the alert
`'Tracking is already active.'` and leaves the UI untouched; any other
status raises an error alert.  Returns the new UI state and the alerts
raised. -/
def handleStartResponse (r : StartResponse) (u : UiState) :
    UiState × List String :=
  match r with
  | .success => (setTrackingState true u, [])
  | .alreadyActive => (u, ["Tracking is already active."])
  | .fail msg => (u, ["Error starting tracking: " ++ msg])

/-- **C4.** A start request while a session is already active is rejected
with an explicit `ALREADY_ACTIVE` signal and leaves the session state
unchanged; on the client, the `already_active` response raises a visible
alert (never a silent ignore) and leaves the UI state unchanged. -/
theorem start_while_active_rejected (s : SessionState) (u : UiState)
    (h : s.phase = .ACTIVE) :
    startSession s = (s, some .ALREADY_ACTIVE) ∧
    handleStartResponse .alreadyActive u =
      (u, ["Tracking is already active."]) ∧
    (handleStartResponse .alreadyActive u).2 ≠ [] := by
  refine ⟨?_, rfl, by simp [handleStartResponse]⟩
  unfold startSession
  simp [h]

/-- Closed instantiation of `start_while_active_rejected` on a concrete
active session. -/
theorem start_while_active_rejected_witness :
    startSession
        { phase := .ACTIVE, rightLimb := initLimbState,
          leftLimb := initLimbState, elapsedSeconds := 7 }
      = ({ phase := .ACTIVE, rightLimb := initLimbState,
           leftLimb := initLimbState, elapsedSeconds := 7 },
         some .ALREADY_ACTIVE) :=
  (start_while_active_rejected
    { phase := .ACTIVE, rightLimb := initLimbState,
      leftLimb := initLimbState, elapsedSeconds := 7 }
    { startDisabled := true, stopDisabled := false,
      header := "PhysioCheck: Tracking Active" } rfl).1

/-- **C5.** A stop request is honored at any phase (the result phase is
always `STOPPED`, with no error case) and is idempotent: a second stop on
the already-stopped state returns exactly the same state and summary, and
on an already-`STOPPED` session stop changes no state at all. -/
theorem stop_idempotent (s : SessionState) :
    (stopSession s).1.phase = .STOPPED ∧
    stopSession (stopSession s).1 = stopSession s ∧
    (s.phase = .STOPPED → (stopSession s).1 = s) := by
  refine ⟨rfl, rfl, fun h => ?_⟩
  cases s
  simp_all [stopSession]

/-- Closed instantiation of `stop_idempotent` on a concrete stopped
session, discharging the already-stopped hypothesis there. -/
theorem stop_idempotent_witness :
    (stopSession
        { phase := .STOPPED, rightLimb := initLimbState,
          leftLimb := initLimbState, elapsedSeconds := 4 }).1
      = { phase := .STOPPED, rightLimb := initLimbState,
          leftLimb := initLimbState, elapsedSeconds := 4 } :=
  (stop_idempotent
    { phase := .STOPPED, rightLimb := initLimbState,
      leftLimb := initLimbState, elapsedSeconds := 4 }).2.2 rfl

/-! ## Pose comparison / accuracy scorer (spec §4.5)

Modelled from the spec: the scorer lives in the Python engine, which is not
in the repository.  Per-landmark distances between the user pose and the
reference pose are averaged over matched pairs and mapped through
`accuracy = max(0, 100 − avgDistance × scaleFactor)`; the Euclidean metric
is abstracted as a caller-supplied distance function `dist` (√· is not
rational), constrained to be nonnegative where the bounds need it. -/

/-- A normalized 2D landmark position. -/
structure Point2D where
  x : ℚ
  y : ℚ
  deriving DecidableEq, Repr

/-- Feedback tiers of §4.5. -/
inductive FormTier
  | good
  | adjust
  | fixPosture
  deriving DecidableEq, Repr

/-- The scorer's result: accuracy percentage, tier, and the explicit
zero-landmark flag. -/
structure ScoreResult where
  accuracy : ℚ
  tier : FormTier
  noLandmarks : Bool
  deriving DecidableEq, Repr

/-- Scorer tuning (§4.5): distance-to-percentage scale and the two tier
thresholds. -/
structure ScorerConfig where
  scaleFactor : ℚ
  highThreshold : ℚ
  midThreshold : ℚ
  deriving DecidableEq, Repr

/-- Landmark pairs present in both the user frame and the reference pose
(unmatched/missing pairs are skipped, §4.5). -/
def matchedPairs (user ref : List (Option Point2D)) :
    List (Point2D × Point2D) :=
  (user.zip ref).filterMap fun p =>
    match p with
    | (some u, some r) => some (u, r)
    | _ => none

/-- Modelled from the spec: `scorePose` (§4.5) — average matched-landmark
distance mapped to `max 0 (100 − avg·scale)`, tiers by the two thresholds;
a zero-landmark-match input yields accuracy 0 with the flag set, not an
exception. -/
def scorePose (cfg : ScorerConfig) (dist : Point2D → Point2D → ℚ)
    (user ref : List (Option Point2D)) : ScoreResult :=
  let pairs := matchedPairs user ref
  if pairs = [] then
    { accuracy := 0, tier := .fixPosture, noLandmarks := true }
  else
    let avg := (pairs.map fun p => dist p.1 p.2).sum / pairs.length
    let acc := max 0 (100 - avg * cfg.scaleFactor)
    { accuracy := acc,
      tier := if cfg.highThreshold < acc then .good
              else if cfg.midThreshold < acc then .adjust
              else .fixPosture,
      noLandmarks := false }

/-- **C6.** `scorePose` is a pure function — identical inputs give
identical outputs; for every input with a nonnegative distance function and
scale factor the accuracy lies in `[0, 100]`; and an input with zero
matched landmarks yields accuracy 0 with the `noLandmarks` flag set rather
than an exception. -/
theorem scorePose_pure_bounded (cfg : ScorerConfig)
    (dist : Point2D → Point2D → ℚ) (user ref : List (Option Point2D))
    (hscale : 0 ≤ cfg.scaleFactor) (hdist : ∀ p q, 0 ≤ dist p q) :
    scorePose cfg dist user ref = scorePose cfg dist user ref ∧
    0 ≤ (scorePose cfg dist user ref).accuracy ∧
    (scorePose cfg dist user ref).accuracy ≤ 100 ∧
    (matchedPairs user ref = [] →
      (scorePose cfg dist user ref).accuracy = 0 ∧
      (scorePose cfg dist user ref).noLandmarks = true) := by
  by_cases hp : matchedPairs user ref = []
  · refine ⟨rfl, ?_, ?_, fun _ => ?_⟩ <;> simp [scorePose, hp]
  · have hacc : (scorePose cfg dist user ref).accuracy =
        max 0 (100 - ((matchedPairs user ref).map fun p => dist p.1 p.2).sum /
          ((matchedPairs user ref).length : ℚ) * cfg.scaleFactor) := by
      simp [scorePose, hp]
    have havg : 0 ≤ ((matchedPairs user ref).map fun p => dist p.1 p.2).sum /
        ((matchedPairs user ref).length : ℚ) := by
      apply div_nonneg
      · exact List.sum_nonneg (by
          intro x hx
          obtain ⟨p, _, rfl⟩ := List.mem_map.mp hx
          exact hdist p.1 p.2)
      · positivity
    have hmul : 0 ≤ ((matchedPairs user ref).map fun p => dist p.1 p.2).sum /
        ((matchedPairs user ref).length : ℚ) * cfg.scaleFactor :=
      mul_nonneg havg hscale
    refine ⟨rfl, ?_, ?_, fun h => absurd h hp⟩
    · rw [hacc]; exact le_max_left _ _
    · rw [hacc]; exact max_le (by norm_num) (by linarith)

/-- Taxicab distance on 2D points, a concrete nonnegative metric to
instantiate the scorer at. -/
def taxiDist (p q : Point2D) : ℚ :=
  |p.x - q.x| + |p.y - q.y|

/-- Closed instantiation of `scorePose_pure_bounded` at a concrete
configuration, metric and landmark lists, discharging both hypotheses
there. -/
theorem scorePose_pure_bounded_witness :
    0 ≤ (scorePose ⟨2, 80, 50⟩ taxiDist
          [some ⟨0, 0⟩, some ⟨1, 0⟩, none] [some ⟨1, 0⟩, some ⟨1, 1⟩, some ⟨0, 0⟩]).accuracy ∧
    (scorePose ⟨2, 80, 50⟩ taxiDist
          [some ⟨0, 0⟩, some ⟨1, 0⟩, none] [some ⟨1, 0⟩, some ⟨1, 1⟩, some ⟨0, 0⟩]).accuracy ≤ 100 :=
  ⟨(scorePose_pure_bounded ⟨2, 80, 50⟩ taxiDist _ _ (by norm_num)
      (fun p q => add_nonneg (abs_nonneg _) (abs_nonneg _))).2.1,
   (scorePose_pure_bounded ⟨2, 80, 50⟩ taxiDist
      [some ⟨0, 0⟩, some ⟨1, 0⟩, none] [some ⟨1, 0⟩, some ⟨1, 1⟩, some ⟨0, 0⟩]
      (by norm_num)
      (fun p q => add_nonneg (abs_nonneg _) (abs_nonneg _))).2.2.1⟩

/-! ## Workout update handler (embedding of `handleWorkoutUpdate` in
`src/frontend/src/Tracker.jsx`) -/

/-- The `calibration` object of a `workout_update` payload. -/
structure CalibrationInfo where
  message : Option String
  progress : Option ℚ
  deriving DecidableEq, Repr

/-- The fields of a `workout_update` payload the handler reads. -/
structure WorkoutUpdate where
  status : String
  calibration : Option CalibrationInfo
  remaining : ℤ
  rightFeedback : Option String
  leftFeedback : Option String
  deriving DecidableEq, Repr

/-- The React state the handler writes. -/
structure TrackerState where
  feedback : String
  calibrationProgress : ℚ
  countdownValue : Option ℤ
  feedbackColor : String
  deriving DecidableEq, Repr

/-- Embeds `json.calibration?.progress || 0`: the optional chain and the
falsy default (a missing chain, a missing field and the value `0` all
render as `0`). -/
def calibProgressValue (c : Option CalibrationInfo) : ℚ :=
  match c with
  | none => 0
  | some ci => ci.progress.getD 0

/-- Embeds `json.calibration?.message || "Calibrating..."` (the empty
string is falsy). -/
def calibMessageValue (c : Option CalibrationInfo) : String :=
  match c with
  | none => "Calibrating..."
  | some ci =>
      match ci.message with
      | none => "Calibrating..."
      | some m => if m = "" then "Calibrating..." else m

/-- Embeds `handleWorkoutUpdate` of `Tracker.jsx` (the TTS side effects are
dropped; the DOM/React state writes are kept): `CALIBRATION` renders the
payload's progress directly, `COUNTDOWN` pins progress to 100 and shows the
countdown, `ACTIVE` shows error feedback with RIGHT priority, any other
status leaves the state alone. -/
def handleWorkoutUpdate (j : WorkoutUpdate) (st : TrackerState) :
    TrackerState :=
  if j.status = "CALIBRATION" then
    { st with feedback := calibMessageValue j.calibration,
              calibrationProgress := calibProgressValue j.calibration,
              countdownValue := none }
  else if j.status = "COUNTDOWN" then
    { st with feedback := "Get Ready!",
              countdownValue := some j.remaining,
              calibrationProgress := 100 }
  else if j.status = "ACTIVE" then
    { st with countdownValue := none,
              feedback :=
                if truthy j.rightFeedback then
                  "RIGHT: " ++ j.rightFeedback.getD ""
                else if truthy j.leftFeedback then
                  "LEFT: " ++ j.leftFeedback.getD ""
                else "MAINTAIN FORM",
              feedbackColor :=
                if truthy j.rightFeedback || truthy j.leftFeedback then
                  "#D32F2F"
                else "#76B041" }
  else st

/-- **C7.** During `CALIBRATION` every update renders the payload's
progress value directly, defaulting to 0 when the calibration object or its
progress field is absent; whenever the controller's progress obeys the
spec's 0–100 contract the rendered progress lies in `[0, 100]` (the
controller itself is not in the repository, so its bound is taken from
§4.4); and on transition to `COUNTDOWN` the rendered progress is 100. -/
theorem calibration_progress_rendered (j : WorkoutUpdate) (st : TrackerState)
    (hbound : ∀ ci p, j.calibration = some ci → ci.progress = some p →
      0 ≤ p ∧ p ≤ 100) :
    (j.status = "CALIBRATION" →
      (handleWorkoutUpdate j st).calibrationProgress =
        calibProgressValue j.calibration ∧
      (j.calibration = none →
        (handleWorkoutUpdate j st).calibrationProgress = 0) ∧
      0 ≤ (handleWorkoutUpdate j st).calibrationProgress ∧
      (handleWorkoutUpdate j st).calibrationProgress ≤ 100) ∧
    (j.status = "COUNTDOWN" →
      (handleWorkoutUpdate j st).calibrationProgress = 100) := by
  constructor
  · intro hs
    have hval : (handleWorkoutUpdate j st).calibrationProgress =
        calibProgressValue j.calibration := by
      simp [handleWorkoutUpdate, hs]
    refine ⟨hval, fun hc => by simp [hval, calibProgressValue, hc], ?_, ?_⟩
    · rw [hval]
      cases hc : j.calibration with
      | none => simp [calibProgressValue]
      | some ci =>
          cases hpr : ci.progress with
          | none => simp [calibProgressValue, hpr]
          | some p =>
              simpa [calibProgressValue, hpr] using (hbound ci p hc hpr).1
    · rw [hval]
      cases hc : j.calibration with
      | none => norm_num [calibProgressValue]
      | some ci =>
          cases hpr : ci.progress with
          | none => norm_num [calibProgressValue, hpr]
          | some p =>
              simpa [calibProgressValue, hpr] using (hbound ci p hc hpr).2
  · intro hs
    have hne : j.status ≠ "CALIBRATION" := by
      rw [hs]; decide
    simp [handleWorkoutUpdate, hs, hne]

/-- A concrete calibration update at 40% progress. -/
def calibUpdate : WorkoutUpdate :=
  { status := "CALIBRATION",
    calibration := some { message := some "Hold still", progress := some 40 },
    remaining := 0, rightFeedback := none, leftFeedback := none }

/-- The tracker's initial React state. -/
def initialTrackerState : TrackerState :=
  { feedback := "Press Start to Begin", calibrationProgress := 0,
    countdownValue := none, feedbackColor := "#76B041" }

/-- Closed instantiation of `calibration_progress_rendered` at a concrete
40%-progress calibration update, discharging the controller bound there. -/
theorem calibration_progress_rendered_witness :
    (handleWorkoutUpdate calibUpdate initialTrackerState).calibrationProgress
      = 40 ∧
    0 ≤ (handleWorkoutUpdate calibUpdate
          initialTrackerState).calibrationProgress ∧
    (handleWorkoutUpdate calibUpdate initialTrackerState).calibrationProgress
      ≤ 100 := by
  have hb : ∀ ci p, calibUpdate.calibration = some ci →
      ci.progress = some p → 0 ≤ p ∧ p ≤ 100 := by
    intro ci p hci hp
    injection hci with h
    subst h
    injection hp with h2
    constructor <;> rw [← h2] <;> norm_num
  have h := (calibration_progress_rendered calibUpdate initialTrackerState
    hb).1 rfl
  exact ⟨h.1.trans rfl, h.2.2.1, h.2.2.2⟩

/-! ## Report page (embedding of `src/static/js/report.js`) -/

/-- The DOM state `renderSummary` writes.  A `min_time` field holds
`some t` when the script writes `t.toFixed(2)+'s'` and `none` when it
writes `'--'`. -/
structure ReportDisplay where
  durationText : ℚ
  totalReps : ℕ
  rReps : ℕ
  rMinTime : Option ℚ
  rErrors : ℕ
  lReps : ℕ
  lMinTime : Option ℚ
  lErrors : ℕ
  deriving DecidableEq, Repr

/-- Embeds `renderSummary` of `report.js`: the overall rep total is
`summary.RIGHT.total_reps + summary.LEFT.total_reps`, and each arm's
minimum rep time is shown as a number only when `min_time > 0`. -/
def renderSummary (data : SessionSummary) : ReportDisplay :=
  { durationText := data.duration,
    totalReps := data.right.total_reps + data.left.total_reps,
    rReps := data.right.total_reps,
    rMinTime := if data.right.min_time > 0 then some data.right.min_time
                else none,
    rErrors := data.right.error_count,
    lReps := data.left.total_reps,
    lMinTime := if data.left.min_time > 0 then some data.left.min_time
                else none,
    lErrors := data.left.error_count }

/-- **C8.** `renderSummary` displays the overall rep total as the sum of
the RIGHT and LEFT per-limb `total_reps`, shows each limb's minimum rep
time as a number exactly when `min_time > 0` (dashes otherwise), and hence
a summary with all counts at zero — e.g. a session stopped during
calibration — renders 0 reps and no timing values. -/
theorem renderSummary_totals (data : SessionSummary) :
    (renderSummary data).totalReps =
      data.right.total_reps + data.left.total_reps ∧
    ((renderSummary data).rMinTime = some data.right.min_time ↔
      0 < data.right.min_time) ∧
    ((renderSummary data).rMinTime = none ↔ ¬ 0 < data.right.min_time) ∧
    ((renderSummary data).lMinTime = some data.left.min_time ↔
      0 < data.left.min_time) ∧
    ((renderSummary data).lMinTime = none ↔ ¬ 0 < data.left.min_time) ∧
    (data.right = ⟨0, 0, 0⟩ → data.left = ⟨0, 0, 0⟩ →
      (renderSummary data).totalReps = 0 ∧
      (renderSummary data).rMinTime = none ∧
      (renderSummary data).lMinTime = none) := by
  refine ⟨rfl, ?_, ?_, ?_, ?_, ?_⟩
  · unfold renderSummary
    by_cases h : 0 < data.right.min_time <;> simp [h]
  · unfold renderSummary
    by_cases h : 0 < data.right.min_time <;> simp [h]
  · unfold renderSummary
    by_cases h : 0 < data.left.min_time <;> simp [h]
  · unfold renderSummary
    by_cases h : 0 < data.left.min_time <;> simp [h]
  · intro hr hl
    unfold renderSummary
    simp [hr, hl]

/-- Closed instantiation of `renderSummary_totals` on the all-zero summary
of a session stopped during calibration. -/
theorem renderSummary_totals_witness :
    (renderSummary { right := ⟨0, 0, 0⟩, left := ⟨0, 0, 0⟩, duration := 3 }).totalReps = 0 ∧
    (renderSummary { right := ⟨0, 0, 0⟩, left := ⟨0, 0, 0⟩, duration := 3 }).rMinTime = none ∧
    (renderSummary { right := ⟨0, 0, 0⟩, left := ⟨0, 0, 0⟩, duration := 3 }).lMinTime = none :=
  (renderSummary_totals
    { right := ⟨0, 0, 0⟩, left := ⟨0, 0, 0⟩, duration := 3 }).2.2.2.2.2 rfl rfl

/-- Arm identifiers as the report script names them. -/
inductive Arm
  | RIGHT
  | LEFT
  deriving DecidableEq, Repr

/-- The recommendations `renderRecommendations` can push, abstracted to
their title and the data interpolated into the text.  `tempoImbalance`
carries the arm the script names as significantly slower together with the
two best times; `slowDown` is the fast-tempo warning; `tempoConsistent` is
the praise variant that also carries the `TEMPO` title. -/
inductive Recommendation
  | startingTip
  | tempoImbalance (slowerArm : Arm) (slower fast : ℚ)
  | slowDown
  | tempoConsistent
  | consistency
  | formFocus (arm : Arm) (count : ℕ)
  | formFocusGeneral
  | perfectForm
  | balance (r l : ℕ)
  deriving DecidableEq, Repr

/-- The rep-time consistency block of `renderRecommendations`. -/
def tempoRecs (summary : SessionSummary) : List Recommendation :=
  if summary.right.min_time > 0 ∧ summary.left.min_time > 0 then
    if max summary.right.min_time summary.left.min_time /
        min summary.right.min_time summary.left.min_time > 5/4 then
      [.tempoImbalance
        (if summary.right.min_time > summary.left.min_time then .RIGHT
         else .LEFT)
        (max summary.right.min_time summary.left.min_time)
        (min summary.right.min_time summary.left.min_time)]
    else if summary.right.min_time < 3/2 ∨ summary.left.min_time < 3/2 then
      [.slowDown]
    else [.tempoConsistent]
  else if summary.right.total_reps + summary.left.total_reps > 0 then
    [.consistency]
  else []

/-- The error block of `renderRecommendations`. -/
def errorRecs (summary : SessionSummary) : List Recommendation :=
  if summary.right.error_count > summary.left.error_count ∧
      summary.right.error_count > 0 then
    [.formFocus .RIGHT summary.right.error_count]
  else if summary.left.error_count > summary.right.error_count ∧
      summary.left.error_count > 0 then
    [.formFocus .LEFT summary.left.error_count]
  else if summary.right.error_count > 0 ∨ summary.left.error_count > 0 then
    [.formFocusGeneral]
  else [.perfectForm]

/-- The rep-count balance block of `renderRecommendations`. -/
def balanceRecs (summary : SessionSummary) : List Recommendation :=
  if ((summary.right.total_reps : ℤ) - summary.left.total_reps).natAbs > 1
  then [.balance summary.right.total_reps summary.left.total_reps]
  else []

/-- Embeds `renderRecommendations` of `report.js`: a zero-rep session only
gets the starting tip; otherwise the tempo, error and balance blocks push
their recommendations in source order. -/
def renderRecommendations (data : SessionSummary) : List Recommendation :=
  if data.right.total_reps + data.left.total_reps = 0 then [.startingTip]
  else tempoRecs data ++ errorRecs data ++ balanceRecs data

/-- Recognizes a `TEMPO` imbalance recommendation. -/
def isTempoImbalance : Recommendation → Bool
  | .tempoImbalance _ _ _ => true
  | _ => false

theorem errorRecs_no_tempo (d : SessionSummary) :
    (errorRecs d).any isTempoImbalance = false := by
  unfold errorRecs
  split_ifs <;> rfl

theorem balanceRecs_no_tempo (d : SessionSummary) :
    (balanceRecs d).any isTempoImbalance = false := by
  unfold balanceRecs
  split_ifs <;> rfl

/-- A summary whose arms have strictly positive best times in ratio 3/2 but
whose rep counters are both 0. -/
def zeroRepSummary : SessionSummary :=
  { right := { total_reps := 0, min_time := 2, error_count := 0 },
    left := { total_reps := 0, min_time := 3, error_count := 0 },
    duration := 10 }

/-- **C9 counterexample.** The claim quantifies over every summary with
both `min_time`s positive and ratio above 1.25, but `renderRecommendations`
first checks the total rep count: on a summary with positive best times in
ratio 1.5 and rep counters at 0 it emits only the starting tip and no
`TEMPO` recommendation at all. -/
theorem recommendations_zero_reps_no_tempo :
    0 < zeroRepSummary.right.min_time ∧
    0 < zeroRepSummary.left.min_time ∧
    max zeroRepSummary.right.min_time zeroRepSummary.left.min_time /
      min zeroRepSummary.right.min_time zeroRepSummary.left.min_time
      > 5/4 ∧
    renderRecommendations zeroRepSummary = [.startingTip] ∧
    (renderRecommendations zeroRepSummary).any isTempoImbalance = false := by
  refine ⟨by norm_num [zeroRepSummary], by norm_num [zeroRepSummary], ?_, ?_, ?_⟩
  · norm_num [zeroRepSummary]
  · rfl
  · rfl

/-- **C9 (amended).** For every summary with at least one completed rep in
which both arms' `min_time` is strictly positive: when the ratio of the
larger to the smaller `min_time` exceeds 1.25, `renderRecommendations`
emits a `TEMPO` recommendation naming the arm with the larger `min_time` as
the slower arm; when the ratio is at most 1.25 and either arm's `min_time`
is below 1.5 seconds, it emits a `SLOW DOWN` recommendation instead (and no
imbalance `TEMPO`). -/
theorem recommendations_tempo (data : SessionSummary)
    (hreps : 0 < data.right.total_reps + data.left.total_reps)
    (hr : 0 < data.right.min_time) (hl : 0 < data.left.min_time) :
    (5/4 < max data.right.min_time data.left.min_time /
        min data.right.min_time data.left.min_time →
      ((data.left.min_time < data.right.min_time →
        Recommendation.tempoImbalance .RIGHT data.right.min_time
            data.left.min_time ∈ renderRecommendations data) ∧
       (data.right.min_time < data.left.min_time →
        Recommendation.tempoImbalance .LEFT data.left.min_time
            data.right.min_time ∈ renderRecommendations data))) ∧
    (max data.right.min_time data.left.min_time /
        min data.right.min_time data.left.min_time ≤ 5/4 →
      (data.right.min_time < 3/2 ∨ data.left.min_time < 3/2) →
      Recommendation.slowDown ∈ renderRecommendations data ∧
      (renderRecommendations data).any isTempoImbalance = false) := by
  have hne : ¬ data.right.total_reps + data.left.total_reps = 0 := by omega
  constructor
  · intro hratio
    constructor
    · intro hgt
      have hmax : max data.right.min_time data.left.min_time =
          data.right.min_time := max_eq_left hgt.le
      have hmin : min data.right.min_time data.left.min_time =
          data.left.min_time := min_eq_right hgt.le
      rw [hmax, hmin] at hratio
      unfold renderRecommendations tempoRecs
      simp [hne, hr, hl, hmax, hmin, hratio, hgt]
    · intro hlt
      have hmax : max data.right.min_time data.left.min_time =
          data.left.min_time := max_eq_right hlt.le
      have hmin : min data.right.min_time data.left.min_time =
          data.right.min_time := min_eq_left hlt.le
      rw [hmax, hmin] at hratio
      have hngt : ¬ data.right.min_time > data.left.min_time :=
        not_lt.mpr hlt.le
      unfold renderRecommendations tempoRecs
      simp [hne, hr, hl, hmax, hmin, hratio, hngt]
  · intro hratio hfast
    have hnr : ¬ max data.right.min_time data.left.min_time /
        min data.right.min_time data.left.min_time > 5/4 := not_lt.mpr hratio
    constructor
    · unfold renderRecommendations tempoRecs
      simp [hne, hr, hl, hnr, hfast]
    · have ht : (tempoRecs data).any isTempoImbalance = false := by
        unfold tempoRecs
        simp [hr, hl, hnr, hfast, isTempoImbalance]
      unfold renderRecommendations
      simp [hne, List.any_append, ht, errorRecs_no_tempo,
        balanceRecs_no_tempo]

/-- Closed instantiation of `recommendations_tempo` on a concrete summary
with 5 + 5 reps and best times 2s vs 3s. -/
def tempoSummary : SessionSummary :=
  { right := { total_reps := 5, min_time := 2, error_count := 0 },
    left := { total_reps := 5, min_time := 3, error_count := 0 },
    duration := 60 }

/-- Witness for `recommendations_tempo`: at best times 2s (RIGHT) vs 3s
(LEFT) the ratio is 1.5 and the LEFT arm is named as slower. -/
theorem recommendations_tempo_witness :
    Recommendation.tempoImbalance .LEFT tempoSummary.left.min_time
        tempoSummary.right.min_time ∈ renderRecommendations tempoSummary :=
  ((recommendations_tempo tempoSummary (by norm_num [tempoSummary])
      (by norm_num [tempoSummary]) (by norm_num [tempoSummary])).1
    (by norm_num [tempoSummary])).2 (by norm_num [tempoSummary])

/-! ## Ghost model color scheme (embedding of
`src/frontend/src/components/GhostModelOverlay.jsx` and
`src/unnamed/part_010`) -/

/-- A palette entry of `GHOST_COLORS` (primary stroke and glow). -/
structure Palette where
  primary : String
  glow : String
  deriving DecidableEq, Repr

/-- `GHOST_COLORS.RED`. -/
def GHOST_RED : Palette :=
  { primary := "rgba(255, 69, 58, 1.0)", glow := "rgba(255, 69, 58, 0.9)" }

/-- `GHOST_COLORS.GREEN`. -/
def GHOST_GREEN : Palette :=
  { primary := "rgba(52, 211, 153, 1.0)", glow := "rgba(52, 211, 153, 0.9)" }

/-- `GHOST_COLORS.YELLOW`. -/
def GHOST_YELLOW : Palette :=
  { primary := "rgba(251, 191, 36, 1.0)", glow := "rgba(251, 191, 36, 0.9)" }

/-- `GHOST_COLORS.GRAY`. -/
def GHOST_GRAY : Palette :=
  { primary := "rgba(156, 163, 175, 0.9)", glow := "rgba(156, 163, 175, 0.7)" }

/-- Key lookup in the `GHOST_COLORS` object (`undefined` for a key that is
not a property). -/
def ghostColorLookup (key : String) : Option Palette :=
  if key = "RED" then some GHOST_RED
  else if key = "GREEN" then some GHOST_GREEN
  else if key = "YELLOW" then some GHOST_YELLOW
  else if key = "GRAY" then some GHOST_GRAY
  else none

/-- JavaScript `String.prototype.toUpperCase`, modelled as uppercasing
each character (the color keys are ASCII). -/
def jsToUpper (s : String) : String :=
  ⟨s.data.map Char.toUpper⟩

/-- The slice of `ghostPoseData` the color scheme reads. -/
structure GhostPoseData where
  color : Option String
  deriving DecidableEq, Repr

/-- Embeds the memoized `colorScheme` expression
`GHOST_COLORS[ghostPoseData?.color?.toUpperCase()] || GHOST_COLORS.GRAY`:
the optional chain yields `undefined` when the data or its color is
missing, and a failed lookup falls back to the GRAY palette. -/
def colorScheme (g : Option GhostPoseData) : Palette :=
  match g with
  | none => GHOST_GRAY
  | some gp =>
      match gp.color with
      | none => GHOST_GRAY
      | some c => (ghostColorLookup (jsToUpper c)).getD GHOST_GRAY

/-- **C10.** The drawing color scheme is total: for every input the result
is one of the four palettes; a color value matching `RED`, `GREEN`,
`YELLOW` or `GRAY` case-insensitively (i.e. up to `toUpperCase`) selects
that palette entry, and a missing or unrecognized color value falls back to
the GRAY palette rather than failing. -/
theorem colorScheme_total (g : Option GhostPoseData) :
    (colorScheme g = GHOST_RED ∨ colorScheme g = GHOST_GREEN ∨
      colorScheme g = GHOST_YELLOW ∨ colorScheme g = GHOST_GRAY) ∧
    (g = none → colorScheme g = GHOST_GRAY) ∧
    (∀ gp, g = some gp → gp.color = none → colorScheme g = GHOST_GRAY) ∧
    (∀ gp c, g = some gp → gp.color = some c →
      (jsToUpper c = "RED" → colorScheme g = GHOST_RED) ∧
      (jsToUpper c = "GREEN" → colorScheme g = GHOST_GREEN) ∧
      (jsToUpper c = "YELLOW" → colorScheme g = GHOST_YELLOW) ∧
      (jsToUpper c = "GRAY" → colorScheme g = GHOST_GRAY) ∧
      (ghostColorLookup (jsToUpper c) = none → colorScheme g = GHOST_GRAY)) := by
  refine ⟨?_, ?_, ?_, ?_⟩
  · cases g with
    | none => simp [colorScheme]
    | some gp =>
        cases hc : gp.color with
        | none => simp [colorScheme, hc]
        | some c =>
            simp only [colorScheme, hc]
            unfold ghostColorLookup
            split_ifs <;> simp
  · intro h
    subst h
    rfl
  · intro gp hg hc
    subst hg
    simp [colorScheme, hc]
  · intro gp c hg hc
    subst hg
    refine ⟨?_, ?_, ?_, ?_, ?_⟩ <;> intro h
    · simp [colorScheme, hc, ghostColorLookup, h]
    · simp [colorScheme, hc, ghostColorLookup, h]
    · simp [colorScheme, hc, ghostColorLookup, h]
    · simp [colorScheme, hc, ghostColorLookup, h]
    · simp [colorScheme, hc, h]

/-- Closed instantiation of `colorScheme_total`: the lowercase color
`"green"` selects the GREEN palette, and an unrecognized color falls back
to GRAY. -/
theorem colorScheme_total_witness :
    colorScheme (some { color := some "green" }) = GHOST_GREEN ∧
    colorScheme (some { color := some "magenta" }) = GHOST_GRAY ∧
    colorScheme none = GHOST_GRAY := by
  refine ⟨?_, ?_, ?_⟩
  · exact ((colorScheme_total (some { color := some "green" })).2.2.2
      { color := some "green" } "green" rfl rfl).2.1 (by decide)
  · exact ((colorScheme_total (some { color := some "magenta" })).2.2.2
      { color := some "magenta" } "magenta" rfl rfl).2.2.2.2 (by decide)
  · exact (colorScheme_total none).2.1 rfl

end PhysioCheck
